import Mathlib

/-!
Verification of the email-to-draft pipeline of the `resumably` backend
(`backend/app`): the Claude adapter post-processing (`services/claude_service.py`),
the email routes (`routes/emails.py`), the resume routes (`routes/resumes.py`)
and the relevant SQLAlchemy rows (`models.py`, `schemas.py`),
shallowly embedded as executable Lean definitions.

Conventions of the embedding:
* Python dict-rows become Lean structures; the database tables become `List` of rows
  in insertion order; `db.add` is `++ [row]`, `query(...).first()` is a first-match
  lookup, bulk `update` is a `map`, updating the object returned by `.first()` is
  `updateFirst`.
* The external reasoning engine (Anthropic client) and Python's `json.loads` are
  collaborators: a reasoning response is represented by its raw text together with a
  decoder `loads : String → Except String Json` standing for `json.loads`
  (`.error e` is a raised `json.JSONDecodeError` with message `e`).
* Floats carry no arithmetic in the modelled code (they are parsed, stored and
  compared only), so JSON numbers are represented as `ℚ`.
* Uncaught Python exceptions are the `.error` branch of `Except`.
-/

namespace Resumably

/-- JSON values, as produced by a successful `json.loads`. -/
inductive Json where
  | null : Json
  | bool : Bool → Json
  | num : ℚ → Json
  | str : String → Json
  | arr : List Json → Json
  | obj : List (String × Json) → Json

/-- `schemas.py::JobDetails` (pydantic model): the classifier's structured output.
`is_recruiter_email` and `confidence` are required; every other field has a default
(`None` for the optionals, `[]` for the lists, `""` for `reason`). The `confidence`
field is a bare `float` with no range constraint. -/
structure JobDetails where
  is_recruiter_email : Bool
  confidence : ℚ
  job_title : Option String := none
  company : Option String := none
  key_requirements : List String := []
  key_technologies : List String := []
  job_type : Option String := none
  seniority_level : Option String := none
  salary_range : Option String := none
  recruiter_name : Option String := none
  reason : String := ""
deriving DecidableEq

/-- The canonical classification-failure value built in the `except` branch of
`ClaudeService.classify_email` (claude_service.py lines 68-72). -/
def failureSignal (reason : String) : JobDetails :=
  { is_recruiter_email := false, confidence := 0, reason := reason }

/-- The code-fence stripping performed before `json.loads` in
`ClaudeService.classify_email` / `tailor_resume` / `extract_skills_from_email`
(claude_service.py lines 59-65): if the text contains a ```json fence take the
segment between it and the next fence, else if it contains any ``` fence take the
segment after the first one, then `.strip()`. Python's `"sep" in text` is
`(text.splitOn "sep").length > 1`; membership guarantees the index accesses
`[1]` and `[0]` succeed, so `getD`/`headD` never take their fallback here. -/
def stripFences (text : String) : String :=
  let t :=
    if (text.splitOn "```json").length > 1 then
      ((((text.splitOn "```json").getD 1 "").splitOn "```").headD "")
    else if (text.splitOn "```").length > 1 then
      ((((text.splitOn "```").getD 1 "").splitOn "```").headD "")
    else text
  t.trim

/-- Decode an optional-string pydantic field (`Optional[str] = None`): absent or
JSON `null` gives `none`, a JSON string gives `some`, any other shape is a
validation error. -/
def decodeOptStr (fieldName : String) : Option Json → Except String (Option String)
  | none => .ok none
  | some .null => .ok none
  | some (.str s) => .ok (some s)
  | some _ => .error ("ValidationError: " ++ fieldName)

/-- Decode a string-list pydantic field (`List[str] = []`): absent gives `[]`, a
JSON array of strings gives the list, any other shape is a validation error. -/
def decodeStrList (fieldName : String) : Option Json → Except String (List String)
  | none => .ok []
  | some (.arr xs) =>
      xs.mapM fun x =>
        match x with
        | .str s => Except.ok s
        | _ => Except.error ("ValidationError: " ++ fieldName)
  | some _ => .error ("ValidationError: " ++ fieldName)

/-- The pydantic validation performed by `JobDetails(**result)` (claude_service.py
line 66) on the decoded JSON, for well-typed JSON fields: a non-object raises
`TypeError`, a missing or mistyped required field and a mistyped optional field
raise `ValidationError`, extra keys are ignored, absent optional fields take the
schema defaults. (Pydantic's lax string/number coercions are outside the shapes
exercised here.) An `.error` is a raised Python exception: `JobDetails(**result)`
sits inside a `try` whose `except` clause catches only `json.JSONDecodeError` and
`IndexError`, so these validation errors propagate to the caller. -/
def jobDetailsOfJson : Json → Except String JobDetails
  | .obj kvs => do
      let irb ←
        match List.lookup "is_recruiter_email" kvs with
        | some (.bool b) => Except.ok b
        | some _ => Except.error "ValidationError: is_recruiter_email"
        | none => Except.error "ValidationError: is_recruiter_email missing"
      let conf ←
        match List.lookup "confidence" kvs with
        | some (.num q) => Except.ok q
        | some _ => Except.error "ValidationError: confidence"
        | none => Except.error "ValidationError: confidence missing"
      let jt ← decodeOptStr "job_title" (List.lookup "job_title" kvs)
      let co ← decodeOptStr "company" (List.lookup "company" kvs)
      let kr ← decodeStrList "key_requirements" (List.lookup "key_requirements" kvs)
      let kt ← decodeStrList "key_technologies" (List.lookup "key_technologies" kvs)
      let jty ← decodeOptStr "job_type" (List.lookup "job_type" kvs)
      let sl ← decodeOptStr "seniority_level" (List.lookup "seniority_level" kvs)
      let sr ← decodeOptStr "salary_range" (List.lookup "salary_range" kvs)
      let rn ← decodeOptStr "recruiter_name" (List.lookup "recruiter_name" kvs)
      let rs ←
        match List.lookup "reason" kvs with
        | some (.str s) => Except.ok s
        | some .null => Except.error "ValidationError: reason"
        | some _ => Except.error "ValidationError: reason"
        | none => Except.ok ""
      Except.ok
        { is_recruiter_email := irb, confidence := conf, job_title := jt, company := co,
          key_requirements := kr, key_technologies := kt, job_type := jty,
          seniority_level := sl, salary_range := sr, recruiter_name := rn, reason := rs }
  | _ => .error "TypeError: JobDetails expects a JSON object"

/-- The response post-processing of `ClaudeService.classify_email` (claude_service.py
lines 57-72), as a function of the decode outcome of the fence-stripped response
text: a `json.JSONDecodeError` is caught and mapped to the canonical failure signal
with the exception message in `reason`; a decoded value goes to `JobDetails(**result)`
whose validation errors are NOT caught. -/
def classify_postprocess (decoded : Except String Json) : Except String JobDetails :=
  match decoded with
  | .error e => .ok (failureSignal ("Failed to parse response: " ++ e))
  | .ok j => jobDetailsOfJson j

/-- `ClaudeService.classify_email` (claude_service.py lines 22-72) as a function of
the decoder (collaborator `json.loads`) and the reasoning-engine response text. -/
def classify_email (loads : String → Except String Json) (text : String) :
    Except String JobDetails :=
  classify_postprocess (loads (stripFences text))

/-- `ClaudeService.tailor_resume` response handling (claude_service.py lines 120-130)
as a function of the decoder, the base resume document, the job signal and the
reasoning-engine response text: the decoded JSON is returned unvalidated; on
`json.JSONDecodeError` (or `IndexError`) the base resume is returned unchanged.
The function is total: no exception escapes this boundary. -/
def tailor_resume (loads : String → Except String Json) (base : Json)
    (_signal : JobDetails) (text : String) : Json :=
  match loads (stripFences text) with
  | .error _ => base
  | .ok j => j

/-- The greeting computation of `ClaudeService.generate_reply_email`
(claude_service.py lines 143-144): `recruiter_name = job_details.recruiter_name or ''`
then `f"Hi {recruiter_name}," if recruiter_name else "Hi,"` — Python's falsiness of
`None` and `""` both select the fallback. -/
def replyGreeting (jd : JobDetails) : String :=
  let name := jd.recruiter_name.getD ""
  if name = "" then "Hi," else "Hi " ++ name ++ ","

/-! ### Skill ledger (`models.py::SkillLearning`, `routes/emails.py::learn_skills_from_email`) -/

/-- Python's `str.lower()` as used on skill names (ASCII lowering per character;
the modelled inputs are ASCII). -/
def pyLower (s : String) : String := ⟨s.data.map Char.toLower⟩

/-- One extracted skill mention, a dict `{name, category, context}` from
`extract_skills_from_email`; `category` and `context` are read with `.get` (default
`'other'` / `''`), `name` with mandatory indexing. -/
structure Mention where
  name : String
  category : Option String
  context : Option String
deriving DecidableEq

/-- A `skill_learnings` row (models.py lines 157-174), the fields the accumulator
touches. -/
structure SkillRow where
  user_id : Nat
  skill_name : String
  category : String
  occurrence_count : Nat
  contexts : List String
deriving DecidableEq

/-- Update the first element satisfying `p` (the object returned by
`query(...).first()` is mutated in place; all other rows are untouched). -/
def updateFirst (p : α → Bool) (f : α → α) : List α → List α
  | [] => []
  | x :: xs => if p x then f x :: xs else x :: updateFirst p f xs

/-- One iteration of the loop in `learn_skills_from_email` (emails.py lines 173-191):
look up the row for `(user_id, name.lower())`; if present increment
`occurrence_count` and append the mention's context (the stored `category` is not
touched); if absent insert a new row with `occurrence_count = 1`. -/
def recordMention (u : Nat) (db : List SkillRow) (m : Mention) : List SkillRow :=
  if db.any (fun r => r.user_id == u && r.skill_name == pyLower m.name) then
    updateFirst (fun r => r.user_id == u && r.skill_name == pyLower m.name)
      (fun r =>
        { r with occurrence_count := r.occurrence_count + 1,
                 contexts := r.contexts ++ [m.context.getD ""] })
      db
  else
    db ++ [{ user_id := u, skill_name := pyLower m.name,
             category := m.category.getD "other", occurrence_count := 1,
             contexts := [m.context.getD ""] }]

/-- `learn_skills_from_email` (emails.py lines 169-193) applied to an
already-extracted mention list: fold the per-mention merge over the ledger. -/
def learn_skills_from_email (u : Nat) (mentions : List Mention)
    (db : List SkillRow) : List SkillRow :=
  mentions.foldl (recordMention u) db

/-! ### Processed emails (`models.py::ProcessedEmail`, `routes/emails.py`) -/

/-- The `email_data` dict handed to classification and draft creation
(`{subject, from, body}` as used by the modelled code paths). -/
structure EmailData where
  subject : String
  sender : String
  body : String
deriving DecidableEq

/-- A `processed_emails` row (models.py lines 100-125), the fields the modelled
routes read and write. `gmail_id` carries a UNIQUE constraint (on `gmail_id` alone,
not on the `(user_id, gmail_id)` pair). The row does NOT persist the signal's
`job_type`, `seniority_level`, `salary_range`, `recruiter_name` or `reason`. -/
structure ProcessedEmailRow where
  user_id : Nat
  gmail_id : String
  subject : String
  sender : String
  body : String
  is_recruiter_email : Bool
  confidence : ℚ
  job_title : Option String
  company : Option String
  job_requirements : List String
  technologies : List String
deriving DecidableEq

/-- The `ProcessedEmail(...)` construction shared by `classify_email` (emails.py
lines 78-90) and `process_emails_batch` (lines 145-157): the body is truncated to
5000 characters, and only six of the eleven `JobDetails` fields are stored. -/
def mkProcessedRow (u : Nat) (gid : String) (e : EmailData) (jd : JobDetails) :
    ProcessedEmailRow :=
  { user_id := u, gmail_id := gid, subject := e.subject, sender := e.sender,
    body := e.body.take 5000,
    is_recruiter_email := jd.is_recruiter_email, confidence := jd.confidence,
    job_title := jd.job_title, company := jd.company,
    job_requirements := jd.key_requirements, technologies := jd.key_technologies }

/-- The single-message endpoint `classify_email` (emails.py lines 64-102), given the
Classification Adapter as a collaborator. The route performs NO lookup of an
existing row: it invokes the adapter unconditionally (line 75; the first component
of the result counts adapter invocations, always 1) and then inserts. The
`db.commit()` insert is rejected by the UNIQUE constraint on `gmail_id` when a row
with that id already exists — the raised IntegrityError is not caught, so the call
returns an error (`.error ()`) and no row is added; otherwise the new row is
appended and returned with the fresh signal. -/
def classify_email_route (adapter : EmailData → JobDetails) (e : EmailData)
    (u : Nat) (gid : String) (db : List ProcessedEmailRow) :
    Nat × Except Unit (List ProcessedEmailRow × JobDetails) :=
  let jd := adapter e
  if db.any (fun r => r.gmail_id == gid) then
    (1, .error ())
  else
    (1, .ok (db ++ [mkProcessedRow u gid e jd], jd))

/-- The SQLAlchemy session state threaded through one batch run: the rows of
`processed_emails`, plus whether the session holds a failed transaction that was
never rolled back (pending-rollback state). The `except` clause of
`process_emails_batch` (emails.py lines 164-166) only prints and continues — it
never calls `db.rollback()` — so once a `db.commit()` has raised, the session stays
poisoned for the remainder of the run. -/
structure BatchState where
  rows : List ProcessedEmailRow
  poisoned : Bool

/-- One iteration of the `for gmail_id in gmail_ids` loop of `process_emails_batch`
(emails.py lines 132-166), inside its `try`. With a poisoned session, the very
first session operation — the existing-row query — raises `PendingRollbackError`,
which the `except` clause catches, so the iteration is a no-op and the session
stays poisoned. Otherwise: skip if a row for `(user_id, gmail_id)` exists; fetch
and classify (`fetchClassify`, the Gmail + Claude collaborators — `.error` is an
exception raised there, caught, session untouched); then insert. The commit is
rejected by the UNIQUE constraint on `gmail_id` alone when another user's row
carries the same id — the raised IntegrityError is caught, but with no
`db.rollback()` the session is left in pending-rollback state. -/
def processOne (fetchClassify : String → Except String (EmailData × JobDetails))
    (u : Nat) (s : BatchState) (gid : String) : BatchState :=
  if s.poisoned then s
  else if s.rows.any (fun r => r.gmail_id == gid && r.user_id == u) then s
  else
    match fetchClassify gid with
    | .error _ => s
    | .ok (e, jd) =>
        if s.rows.any (fun r => r.gmail_id == gid) then { s with poisoned := true }
        else { s with rows := s.rows ++ [mkProcessedRow u gid e jd] }

/-- The batch runner `process_emails_batch` (emails.py lines 124-166), for a
connected user: fold the guarded per-id step over the id list, threading the
session state. -/
def process_emails_batch (fetchClassify : String → Except String (EmailData × JobDetails))
    (u : Nat) (gids : List String) (s : BatchState) : BatchState :=
  gids.foldl (processOne fetchClassify u) s

/-! ### Resumes (`models.py::Resume`, `routes/resumes.py`) -/

/-- A `resumes` row (models.py lines 75-97), the fields the modelled routes touch. -/
structure ResumeRow where
  id : Nat
  user_id : Nat
  name : String
  is_default : Bool
  personal_info : List (String × String)
  summary : String
  skills : List (String × List String)
  experience : List Json
  education : List Json
  projects : List Json
  certifications : List String

/-- `set_default_resume` (resumes.py lines 154-182): look up the resume by
`(id, user_id)` — 404 (`.error ()`) if absent; otherwise bulk-update all of the
user's rows with `is_default = True` to `False`, then set the found row's flag to
`True`, in one commit. -/
def set_default_resume (u rid : Nat) (db : List ResumeRow) :
    Except Unit (List ResumeRow) :=
  if db.any (fun r => r.id == rid && r.user_id == u) then
    .ok (updateFirst (fun r => r.id == rid && r.user_id == u)
          (fun r => { r with is_default := true })
          (db.map fun r =>
            if r.user_id == u && r.is_default then { r with is_default := false } else r))
  else .error ()

/-! ### Draft creation (`routes/emails.py::create_draft`, `models.py::EmailDraft`) -/

/-- The `base_resume` dict built at emails.py lines 274-282. -/
def baseResumeJson (r : ResumeRow) : Json :=
  .obj [("personal", .obj (r.personal_info.map fun kv => (kv.1, .str kv.2))),
        ("summary", .str r.summary),
        ("skills", .obj (r.skills.map fun kv => (kv.1, .arr (kv.2.map .str)))),
        ("experience", .arr r.experience),
        ("education", .arr r.education),
        ("projects", .arr r.projects),
        ("certifications", .arr (r.certifications.map .str))]

/-- The `JobDetails(...)` reconstruction from a stored row at emails.py lines
285-292: only the six persisted fields are supplied, so `job_type`,
`seniority_level`, `salary_range` and `recruiter_name` take their schema default
`None` and `reason` takes `""`. -/
def reconstructJobDetails (p : ProcessedEmailRow) : JobDetails :=
  { is_recruiter_email := p.is_recruiter_email, confidence := p.confidence,
    job_title := p.job_title, company := p.company,
    key_requirements := p.job_requirements, key_technologies := p.technologies }

/-- An `email_drafts` row (models.py lines 128-154), the fields `create_draft`
writes (ids handed back by external collaborators omitted). -/
structure EmailDraftRow where
  user_id : Nat
  subject : String
  body : String
  tailored_resume : Json
  matched_skills : List String
  status : String

/-- The draft-assembly pipeline `create_draft` (emails.py lines 236-350) after the
processed-email and resume lookups succeed. Collaborator parameters: `loads` and
`tailorText` feed the Tailoring Adapter's response handling (`tailor_resume`), and
`compose` is `generate_reply_email(email_data, job_details, candidate_info,
matched_skills)`. Both the list passed to `compose` (line 308) and the persisted
`matched_skills` (line 338) are `list(job_details.key_technologies)` — the
reconstructed signal's technologies, not anything read from the tailored
document. PDF rendering and the Gmail draft call are external collaborators whose
outputs the stored row does not embed. -/
def create_draft (loads : String → Except String Json) (tailorText : String)
    (compose : EmailData → JobDetails → List (String × String) → List String → String)
    (u : Nat) (processed : ProcessedEmailRow) (resume : ResumeRow) : EmailDraftRow :=
  let base := baseResumeJson resume
  let jd := reconstructJobDetails processed
  let tailored := tailor_resume loads base jd tailorText
  let emailData : EmailData :=
    { subject := processed.subject, sender := processed.sender, body := processed.body }
  let matched := jd.key_technologies
  let reply := compose emailData jd resume.personal_info matched
  { user_id := u, subject := "Re: " ++ processed.subject, body := reply,
    tailored_resume := tailored, matched_skills := matched, status := "draft" }

/-- Modelled from the spec: the spec's phrase "the tailored document's technology
list" (§4.6, `Tailored → Composed`) — the strings under the tailored document's
`skills` mapping, in order. No such read exists in `create_draft`; this definition
exists only to compare the spec's wording against what the code actually passes. -/
def specTailoredTechnologyList (doc : Json) : List String :=
  match doc with
  | .obj kvs =>
      match List.lookup "skills" kvs with
      | some (.obj cats) =>
          (cats.map fun kv =>
            match kv.2 with
            | .arr xs => xs.filterMap fun x =>
                match x with
                | .str s => some s
                | _ => none
            | _ => []).flatten
      | _ => []
  | _ => []

/-! ### Concrete fixtures used by counterexamples and witnesses -/

/-- A concrete inbound email. -/
def FxEmail : EmailData :=
  { subject := "Senior Data Engineer role", sender := "Bob <bob@agency.example>",
    body := "We have a role for you" }

/-- A concrete classification result, with a recruiter name extracted. -/
def FxSignal : JobDetails :=
  { is_recruiter_email := true, confidence := 9/10, job_title := some "Data Engineer",
    company := some "Acme", key_requirements := ["ETL"],
    key_technologies := ["python", "aws"], recruiter_name := some "Bob",
    reason := "recruiter outreach" }

/-- The database after one successful single-message classification of `FxEmail`. -/
def FxDb1 : List ProcessedEmailRow := [mkProcessedRow 7 "g1" FxEmail FxSignal]

/-- A stored processed email whose signal listed `python` as its only technology. -/
def FxProcessed : ProcessedEmailRow :=
  { user_id := 7, gmail_id := "g5", subject := "Job", sender := "Recruiter <r@a.example>",
    body := "b", is_recruiter_email := true, confidence := 4/5,
    job_title := some "SWE", company := some "Acme", job_requirements := [],
    technologies := ["python"] }

/-- A concrete base resume row. -/
def FxResume : ResumeRow :=
  { id := 3, user_id := 7, name := "Default Resume", is_default := true,
    personal_info := [("name", "Ada L")], summary := "s",
    skills := [("backend", ["python"])], experience := [], education := [],
    projects := [], certifications := [] }

/-- A tailored document whose technology list is `["java"]`, different from the
stored signal's `["python"]`. -/
def FxTailoredDoc : Json := .obj [("skills", .obj [("backend", .arr [.str "java"])])]

/-- A tailoring-call decoder that decodes to `FxTailoredDoc`. -/
def FxTailorLoads : String → Except String Json := fun _ => .ok FxTailoredDoc

/-- A reply composer that records the matched-skills argument it received as the
reply body. -/
def FxCompose : EmailData → JobDetails → List (String × String) → List String → String :=
  fun _ _ _ ms => String.intercalate ", " ms

/-- Resume 1 of user 7, currently the default. -/
def FxResumeA : ResumeRow :=
  { id := 1, user_id := 7, name := "A", is_default := true, personal_info := [],
    summary := "", skills := [], experience := [], education := [], projects := [],
    certifications := [] }

/-- Resume 2 of user 7, currently not the default. -/
def FxResumeB : ResumeRow :=
  { id := 2, user_id := 7, name := "B", is_default := false, personal_info := [],
    summary := "", skills := [], experience := [], education := [], projects := [],
    certifications := [] }

/-- A concrete classification result for the batch fixture. -/
def FxBatchSignal : JobDetails := { is_recruiter_email := false, confidence := 1/2 }

/-- A fetch-and-classify collaborator that throws on message id `B` and succeeds on
every other id. -/
def FxFetch : String → Except String (EmailData × JobDetails) := fun gid =>
  if gid == "B" then .error "boom"
  else .ok ({ subject := "subj " ++ gid, sender := "r@x.example", body := "body" },
            FxBatchSignal)

/-- A fetch-and-classify collaborator that succeeds on every id. -/
def FxFetchOk : String → Except String (EmailData × JobDetails) := fun _ =>
  .ok ({ subject := "s", sender := "r@x.example", body := "b" }, FxBatchSignal)

/-- A row of a different user (user 8) whose mailbox message id is `B`: inserting a
row with id `B` for any other user trips the global unique constraint. -/
def FxForeignRow : ProcessedEmailRow :=
  { user_id := 8, gmail_id := "B", subject := "other", sender := "x@y.example",
    body := "b", is_recruiter_email := false, confidence := 0, job_title := none,
    company := none, job_requirements := [], technologies := [] }

/-! ### Helper lemmas -/

/-- `updateFirst` leaves every projection untouched by the update unchanged on the
whole list. -/
theorem updateFirst_map_of_proj (p : α → Bool) (f : α → α) (proj : α → β)
    (hf : ∀ x, proj (f x) = proj x) :
    ∀ l : List α, (updateFirst p f l).map proj = l.map proj := by
  intro l
  induction l with
  | nil => rfl
  | cons x xs ih =>
    unfold updateFirst
    split <;> simp [hf, ih]

/-! ### C7 — tailoring fail-safe -/

/-- C7: for every base resume document and job signal, if the Tailoring Adapter's
reasoning-engine response fails to decode as JSON, `tailor_resume` returns the base
resume document itself (deep equality is Lean equality here) — and, being a total
function, it raises nothing. -/
theorem tailor_fail_safe (loads : String → Except String Json) (base : Json)
    (signal : JobDetails) (text : String) (e : String)
    (h : loads (stripFences text) = .error e) :
    tailor_resume loads base signal text = base := by
  simp [tailor_resume, h]

/-- Witness for C7 at a concrete failing decode. -/
theorem tailor_fail_safe_witness :
    tailor_resume (fun _ => .error "Expecting value") Json.null (failureSignal "x")
      "not json at all" = Json.null :=
  tailor_fail_safe (fun _ => .error "Expecting value") Json.null (failureSignal "x")
    "not json at all" "Expecting value" rfl

/-! ### C10 — reconstructed signal defaults and the greeting fallback -/

/-- C10: the JobSignal reconstructed from a stored ProcessedMessage always carries
the schema defaults for `recruiter_name`, `job_type`, `seniority_level`,
`salary_range` and `reason` (these fields are not persisted on the row), so the
greeting instruction computed by the Reply Composer for every pipeline draft is the
fallback `"Hi,"`, whatever name the original classification extracted. -/
theorem reconstructed_signal_greeting (p : ProcessedEmailRow) :
    (reconstructJobDetails p).recruiter_name = none
    ∧ (reconstructJobDetails p).job_type = none
    ∧ (reconstructJobDetails p).seniority_level = none
    ∧ (reconstructJobDetails p).salary_range = none
    ∧ (reconstructJobDetails p).reason = ""
    ∧ replyGreeting (reconstructJobDetails p) = "Hi," :=
  ⟨rfl, rfl, rfl, rfl, rfl, rfl⟩

/-! ### C5 — where the matched-skills list comes from -/

/-- C5 as stated is false: a concrete successful draft-creation run in which the
tailored document's technology list is `["java"]` while the list passed to the
Reply Composer (recorded in the body by `FxCompose`) and the persisted
`matched_skills` are both `["python"]`, the stored signal's technologies. -/
theorem matched_skills_counterexample :
    (create_draft FxTailorLoads "resp" FxCompose 7 FxProcessed FxResume).matched_skills
        = ["python"]
    ∧ (create_draft FxTailorLoads "resp" FxCompose 7 FxProcessed FxResume).body
        = "python"
    ∧ specTailoredTechnologyList
        (create_draft FxTailorLoads "resp" FxCompose 7 FxProcessed FxResume).tailored_resume
        = ["java"]
    ∧ (create_draft FxTailorLoads "resp" FxCompose 7 FxProcessed FxResume).matched_skills
        ≠ specTailoredTechnologyList
            (create_draft FxTailorLoads "resp" FxCompose 7 FxProcessed FxResume).tailored_resume :=
  ⟨rfl, rfl, rfl, by decide⟩

/-- C5 amended: in every successful draft-creation run, the matched-skills list
passed to the Reply Composer and persisted on the EmailDraftRecord is the stored
JobSignal's key-technologies list (the row's `technologies`), not a list derived
from the Tailoring Adapter's output. -/
theorem matched_skills_from_stored_signal (loads : String → Except String Json)
    (tailorText : String)
    (compose : EmailData → JobDetails → List (String × String) → List String → String)
    (u : Nat) (p : ProcessedEmailRow) (r : ResumeRow) :
    (create_draft loads tailorText compose u p r).matched_skills = p.technologies
    ∧ (create_draft loads tailorText compose u p r).body =
        compose { subject := p.subject, sender := p.sender, body := p.body }
          (reconstructJobDetails p) r.personal_info p.technologies :=
  ⟨rfl, rfl⟩

/-! ### C3 — skill-ledger merge on the spec's example -/

/-- C3: recording `[("Python","eng","ctxA")]` then `[("python","eng","ctxB")]` for
the same user, in either call order, leaves exactly one ledger row for
`(userId, "python")` with `occurrence_count = 2` and contexts containing both
`"ctxA"` and `"ctxB"` — the two orders agree on the row up to context order. -/
theorem skill_merge_commutative (u : Nat) :
    learn_skills_from_email u [{ name := "python", category := some "eng", context := some "ctxB" }]
        (learn_skills_from_email u
          [{ name := "Python", category := some "eng", context := some "ctxA" }] []) =
      [{ user_id := u, skill_name := "python", category := "eng", occurrence_count := 2,
         contexts := ["ctxA", "ctxB"] }]
    ∧ learn_skills_from_email u [{ name := "Python", category := some "eng", context := some "ctxA" }]
        (learn_skills_from_email u
          [{ name := "python", category := some "eng", context := some "ctxB" }] []) =
      [{ user_id := u, skill_name := "python", category := "eng", occurrence_count := 2,
         contexts := ["ctxB", "ctxA"] }] := by
  have hA : pyLower "Python" = "python" := rfl
  have hB : pyLower "python" = "python" := rfl
  constructor <;>
    simp [learn_skills_from_email, recordMention, updateFirst, hA, hB]

/-! ### C4 — category on conflict -/

/-- C4 as stated is false: recording a `python` mention with category `eng` and then
one with category `ai_ml` for the same user leaves the stored category at the
first-seen `"eng"`, not the last-seen `"ai_ml"`. -/
theorem category_last_seen_counterexample :
    (learn_skills_from_email 7 [{ name := "python", category := some "ai_ml", context := some "c2" }]
        (learn_skills_from_email 7
          [{ name := "python", category := some "eng", context := some "c1" }] [])).map
        SkillRow.category = ["eng"]
    ∧ (learn_skills_from_email 7 [{ name := "python", category := some "ai_ml", context := some "c2" }]
        (learn_skills_from_email 7
          [{ name := "python", category := some "eng", context := some "c1" }] [])).map
        SkillRow.category ≠ ["ai_ml"] :=
  ⟨rfl, by decide⟩

/-- C4 amended: the stored category is first-seen-wins — a mention whose category
differs from the stored one leaves the stored category unchanged; a category is
only written when the row is first created. -/
theorem category_first_seen (u : Nat) (m : Mention) (db : List SkillRow) :
    (recordMention u db m).map (fun r => (r.user_id, r.skill_name, r.category)) =
      db.map (fun r => (r.user_id, r.skill_name, r.category)) ++
        if db.any (fun r => r.user_id == u && r.skill_name == pyLower m.name) then []
        else [(u, pyLower m.name, m.category.getD "other")] := by
  unfold recordMention
  by_cases h : db.any (fun r => r.user_id == u && r.skill_name == pyLower m.name) = true
  · simp only [h, if_true, List.append_nil]
    apply updateFirst_map_of_proj
    intro x
    rfl
  · simp only [Bool.not_eq_true] at h
    simp [h]

/-! ### C2 — classification adapter error handling -/

/-- C2 as stated is false: for the reasoning-engine response `"null"` — valid JSON
whose decoded value does not match the JobSignal shape — the adapter does not return
a JobSignal: `JobDetails(**result)` raises (a `TypeError`, caught by no `except`
clause), escaping the adapter boundary. -/
theorem classify_shape_failure_counterexample :
    classify_postprocess (.ok Json.null) =
      .error "TypeError: JobDetails expects a JSON object" :=
  rfl

/-- C2 amended: `classify_email` returns the canonical failure JobSignal — with
`isRecruiterEmail = false`, `confidence = 0.0` and a non-empty `reason` — exactly
when the response text fails to decode as JSON; when the response decodes, the
result is that of pydantic validation, which raises past the adapter boundary on a
shape mismatch instead of being mapped to the failure value. -/
theorem classify_error_handling (loads : String → Except String Json) (text : String) :
    (∀ e, loads (stripFences text) = .error e →
      classify_email loads text = .ok (failureSignal ("Failed to parse response: " ++ e))
      ∧ (failureSignal ("Failed to parse response: " ++ e)).is_recruiter_email = false
      ∧ (failureSignal ("Failed to parse response: " ++ e)).confidence = 0
      ∧ (failureSignal ("Failed to parse response: " ++ e)).reason ≠ "")
    ∧ (∀ j, loads (stripFences text) = .ok j →
        classify_email loads text = jobDetailsOfJson j) := by
  constructor
  · intro e h
    refine ⟨by simp [classify_email, classify_postprocess, h], rfl, rfl, ?_⟩
    intro hempty
    have hempty' : ("Failed to parse response: " ++ e : String) = "" := hempty
    have h2 := congrArg String.length hempty'
    rw [String.length_append] at h2
    have h3 : ("Failed to parse response: " : String).length = 26 := rfl
    have h4 : ("" : String).length = 0 := rfl
    rw [h3, h4] at h2
    omega
  · intro j h
    simp [classify_email, classify_postprocess, h]

/-- Witness for C2's amended decode-failure branch at a concrete failing decoder. -/
theorem classify_error_handling_witness :
    classify_email (fun _ => .error "Expecting value") "total garbage" =
      .ok (failureSignal "Failed to parse response: Expecting value") :=
  ((classify_error_handling (fun _ => .error "Expecting value") "total garbage").1
    "Expecting value" rfl).1

/-! ### C6 — confidence range -/

/-- C6 as stated is false: the response object
`{is_recruiter_email: false, confidence: 1.5}` parses and validates, and the
resulting JobSignal's confidence is 3/2, outside [0, 1] — the pydantic field
carries no range constraint. -/
theorem confidence_out_of_range_counterexample :
    classify_postprocess
        (.ok (.obj [("is_recruiter_email", .bool false), ("confidence", .num (3 / 2))])) =
      .ok { is_recruiter_email := false, confidence := 3 / 2 }
    ∧ ¬((3 / 2 : ℚ) ≤ 1) :=
  ⟨rfl, by norm_num⟩

/-- C6 amended: the adapter does not validate the confidence range — a response that
parses and validates carries its confidence value through verbatim, whatever it is;
only on classification failure is the confidence exactly 0.0 (the canonical failure
value). -/
theorem confidence_unvalidated (b : Bool) (q : ℚ) (e : String) :
    (failureSignal e).confidence = 0
    ∧ classify_postprocess (.error e) =
        .ok (failureSignal ("Failed to parse response: " ++ e))
    ∧ classify_postprocess
        (.ok (.obj [("is_recruiter_email", .bool b), ("confidence", .num q)])) =
        .ok { is_recruiter_email := b, confidence := q } :=
  ⟨rfl, rfl, rfl⟩

/-! ### C1 — idempotence of single-message classification -/

/-- C1 as stated is false: after a first single-message classification stores
`FxDb1`, a second call for the same `(userId, mailboxMessageId)` invokes the
Classification Adapter again (the call count is 1, not 0) and returns an
IntegrityError from the unique constraint instead of short-circuiting to the stored
JobSignal. -/
theorem classify_idempotence_counterexample :
    (classify_email_route (fun _ => FxSignal) FxEmail 7 "g1" []).2 = .ok (FxDb1, FxSignal)
    ∧ classify_email_route (fun _ => FxSignal) FxEmail 7 "g1" FxDb1 = (1, .error ()) :=
  ⟨rfl, rfl⟩

/-- C1 amended: the single-message classification endpoint performs no idempotence
check — it invokes the Classification Adapter on every call; when a ProcessedMessage
with the same mailbox message id already exists, the insert is rejected by the
unique constraint, so the call errors rather than duplicating the row or
short-circuiting to the stored JobSignal; when none exists, exactly the one new row
is appended. (The skip-if-processed check exists only in the batch runner.) -/
theorem classify_route_no_short_circuit (adapter : EmailData → JobDetails)
    (e : EmailData) (u : Nat) (gid : String) (db : List ProcessedEmailRow) :
    (classify_email_route adapter e u gid db).1 = 1
    ∧ (db.any (fun r => r.gmail_id == gid) = true →
        (classify_email_route adapter e u gid db).2 = .error ())
    ∧ (db.any (fun r => r.gmail_id == gid) = false →
        (classify_email_route adapter e u gid db).2 =
          .ok (db ++ [mkProcessedRow u gid e (adapter e)], adapter e)) := by
  unfold classify_email_route
  refine ⟨?_, ?_, ?_⟩
  · split <;> rfl
  · intro h
    simp [h]
  · intro h
    simp [h]

/-- Witness for C1's amended claim: the duplicate-insert branch at the concrete
second call, and the first-insert branch on the empty database. -/
theorem classify_route_no_short_circuit_witness :
    (classify_email_route (fun _ => FxSignal) FxEmail 7 "g1" FxDb1).2 = .error ()
    ∧ (classify_email_route (fun _ => FxSignal) FxEmail 7 "g2" []).2 =
        .ok ([mkProcessedRow 7 "g2" FxEmail FxSignal], FxSignal) :=
  ⟨(classify_route_no_short_circuit (fun _ => FxSignal) FxEmail 7 "g1" FxDb1).2.1 rfl,
   (classify_route_no_short_circuit (fun _ => FxSignal) FxEmail 7 "g2" []).2.2 rfl⟩

/-! ### C8 — default-resume exclusivity -/

/-- Decomposition of `updateFirst` when some element satisfies the predicate: the
list splits around the first match, and only that element is updated. -/
theorem updateFirst_of_any (p : α → Bool) (f : α → α) :
    ∀ l : List α, l.any p = true →
      ∃ l1 x l2, l = l1 ++ x :: l2 ∧ p x = true ∧ (∀ y ∈ l1, p y = false) ∧
        updateFirst p f l = l1 ++ f x :: l2 := by
  intro l
  induction l with
  | nil => intro h; simp at h
  | cons x xs ih =>
    intro h
    by_cases hx : p x = true
    · exact ⟨[], x, xs, rfl, hx, by simp, by simp [updateFirst, hx]⟩
    · have hx' : p x = false := by
        simpa using hx
      have hxs : xs.any p = true := by
        simpa [List.any_cons, hx'] using h
      obtain ⟨l1, y, l2, hdec, hpy, hl1, hupd⟩ := ih hxs
      refine ⟨x :: l1, y, l2, by simp [hdec], hpy, ?_, ?_⟩
      · intro z hz
        rcases List.mem_cons.mp hz with hz | hz
        · exact hz ▸ hx'
        · exact hl1 z hz
      · simp [updateFirst, hx', hupd]

/-- After the bulk clear of `set_default_resume`, no row of the user is flagged
default. -/
theorem filter_default_clear (u : Nat) (l : List ResumeRow) :
    (l.map fun r =>
        if r.user_id == u && r.is_default then { r with is_default := false } else r).filter
      (fun r => r.user_id == u && r.is_default) = [] := by
  induction l with
  | nil => rfl
  | cons x xs ih =>
    have hq : (fun (r : ResumeRow) => r.user_id == u && r.is_default)
        (if x.user_id == u && x.is_default then { x with is_default := false } else x)
        = false := by
      cases hb : (x.user_id == u && x.is_default)
      · simp [hb]
      · simp [hb]
    simp only [List.map_cons, List.filter_cons, hq, Bool.false_eq_true, if_false]
    exact ih

/-- The clearing map changes neither `id` nor `user_id`, so matching on
`(id, user_id)` is unaffected by it. -/
theorem any_clear_eq (u rid : Nat) (db : List ResumeRow) :
    (db.map fun r =>
        if r.user_id == u && r.is_default then { r with is_default := false } else r).any
      (fun r => r.id == rid && r.user_id == u) =
    db.any (fun r => r.id == rid && r.user_id == u) := by
  rw [List.any_map]
  congr 1
  funext r
  by_cases h : (r.user_id == u && r.is_default) = true <;> simp [Function.comp, h]

/-- C8: after `set_default_resume` succeeds for a user owning resume `rid`, the
user's resumes with `is_default = true` are exactly the one with id `rid`, whatever
resume was default before. -/
theorem set_default_exclusive (u rid : Nat) (db : List ResumeRow)
    (h : db.any (fun r => r.id == rid && r.user_id == u) = true) :
    ∃ db', set_default_resume u rid db = .ok db'
      ∧ (db'.filter fun r => r.user_id == u && r.is_default).map ResumeRow.id = [rid] := by
  have hcl := any_clear_eq u rid db
  rw [h] at hcl
  obtain ⟨l1, x, l2, hdec, hpx, hl1, hupd⟩ :=
    updateFirst_of_any (fun r => r.id == rid && r.user_id == u)
      (fun r => { r with is_default := true })
      (db.map fun r =>
        if r.user_id == u && r.is_default then { r with is_default := false } else r) hcl
  refine ⟨l1 ++ { x with is_default := true } :: l2, ?_, ?_⟩
  · unfold set_default_resume
    rw [if_pos h, hupd]
  · have hnone : ∀ r ∈ l1 ++ x :: l2, (r.user_id == u && r.is_default) = false := by
      intro r hr
      have : r ∈ (db.map fun r =>
          if r.user_id == u && r.is_default then { r with is_default := false } else r) :=
        hdec ▸ hr
      have hfil := filter_default_clear u db
      rw [List.filter_eq_nil_iff] at hfil
      simpa using hfil r this
    have hx2 : (x.id == rid && x.user_id == u) = true := hpx
    have hxid : x.id = rid := by
      simpa using ((Bool.and_eq_true _ _).mp hx2).1
    have hxu : x.user_id = u := by
      simpa using ((Bool.and_eq_true _ _).mp hx2).2
    rw [List.filter_append, List.filter_cons]
    have hsetx : (({ x with is_default := true } : ResumeRow).user_id == u &&
        ({ x with is_default := true } : ResumeRow).is_default) = true := by
      simp [hxu]
    rw [if_pos hsetx]
    have hf1 : l1.filter (fun r => r.user_id == u && r.is_default) = [] := by
      rw [List.filter_eq_nil_iff]
      intro r hr
      simp [hnone r (List.mem_append_left _ hr)]
    have hf2 : l2.filter (fun r => r.user_id == u && r.is_default) = [] := by
      rw [List.filter_eq_nil_iff]
      intro r hr
      simp [hnone r (List.mem_append_right _ (List.mem_cons_of_mem _ hr))]
    rw [hf1, hf2]
    simp [hxid]

/-- Witness for C8: user 7 owns resumes 1 (currently default) and 2; after
`set_default_resume 7 2`, resume 2 is the unique default. -/
theorem set_default_exclusive_witness :
    ∃ db', set_default_resume 7 2 [FxResumeA, FxResumeB] = .ok db'
      ∧ (db'.filter fun r => r.user_id == 7 && r.is_default).map ResumeRow.id = [2] :=
  set_default_exclusive 7 2 [FxResumeA, FxResumeB] rfl

/-! ### C9 — batch resilience -/

/-- The per-id batch step never removes a row. -/
theorem mem_processOne (fc : String → Except String (EmailData × JobDetails))
    (u : Nat) (s : BatchState) (gid : String) (r : ProcessedEmailRow)
    (h : r ∈ s.rows) : r ∈ (processOne fc u s gid).rows := by
  unfold processOne
  split
  · exact h
  · split
    · exact h
    · split
      · exact h
      · split
        · exact h
        · exact List.mem_append_left _ h

/-- The batch runner never removes a row. -/
theorem mem_process_emails_batch_of_mem (fc : String → Except String (EmailData × JobDetails))
    (u : Nat) : ∀ (gids : List String) (s : BatchState) (r : ProcessedEmailRow),
    r ∈ s.rows → r ∈ (process_emails_batch fc u gids s).rows := by
  intro gids
  induction gids with
  | nil => intro s r h; exact h
  | cons g gs ih =>
    intro s r h
    exact ih (processOne fc u s g) r (mem_processOne fc u s g r h)

/-- On a clean session, a step whose id collides with no other user's stored row
cannot poison the session, and can only append rows carrying that id and this
user. -/
theorem processOne_clean (fc : String → Except String (EmailData × JobDetails))
    (u : Nat) (s : BatchState) (g : String)
    (hp : s.poisoned = false)
    (hcross : ∀ r ∈ s.rows, r.gmail_id = g → r.user_id = u) :
    (processOne fc u s g).poisoned = false
    ∧ ∃ tail, (processOne fc u s g).rows = s.rows ++ tail
        ∧ ∀ r ∈ tail, r.gmail_id = g ∧ r.user_id = u := by
  unfold processOne
  rw [hp]
  simp only [Bool.false_eq_true, if_false]
  by_cases h1 : s.rows.any (fun r => r.gmail_id == g && r.user_id == u) = true
  · rw [if_pos h1]
    exact ⟨hp, [], by simp, by simp⟩
  · rw [if_neg h1]
    cases hfc : fc g with
    | error err => exact ⟨hp, [], by simp, by simp⟩
    | ok p =>
      obtain ⟨e, jd⟩ := p
      dsimp only
      by_cases h2 : s.rows.any (fun r => r.gmail_id == g) = true
      · exfalso
        rw [List.any_eq_true] at h2
        obtain ⟨r, hr, hrg⟩ := h2
        have hrg' : r.gmail_id = g := by simpa using hrg
        have hru : r.user_id = u := hcross r hr hrg'
        apply h1
        rw [List.any_eq_true]
        exact ⟨r, hr, by simp [hrg', hru]⟩
      · rw [if_neg h2]
        refine ⟨rfl, [mkProcessedRow u g e jd], rfl, ?_⟩
        intro r hr
        rcases List.mem_singleton.mp hr with rfl
        exact ⟨rfl, rfl⟩

/-- C9 amended, in three parts. (1) A fetch/classify failure on one id does not
abort the batch: on a clean session, when no id of the batch collides with another
user's stored row, every id whose fetch/classify succeeds and which has no
pre-existing row ends up with a ProcessedMessage row for this user, regardless of
failures on other ids. (2) A batch all of whose ids already have rows for this
user changes nothing — already-processed ids are skipped, not reprocessed. (3) On
a poisoned session — after a commit-stage IntegrityError was caught without a
rollback — the whole remaining batch is a no-op: every later id's first query
raises `PendingRollbackError`, is swallowed, and produces no row. -/
theorem batch_resilience_and_poisoning :
    (∀ (fc : String → Except String (EmailData × JobDetails)) (u : Nat)
        (gids : List String) (s : BatchState) (a : String)
        (e : EmailData) (jd : JobDetails),
      s.poisoned = false →
      (∀ g ∈ gids, ∀ r ∈ s.rows, r.gmail_id = g → r.user_id = u) →
      a ∈ gids → fc a = .ok (e, jd) → (∀ r ∈ s.rows, r.gmail_id ≠ a) →
      ∃ r ∈ (process_emails_batch fc u gids s).rows, r.gmail_id = a ∧ r.user_id = u)
    ∧ (∀ (fc : String → Except String (EmailData × JobDetails)) (u : Nat)
        (gids : List String) (s : BatchState),
      (∀ a ∈ gids, s.rows.any (fun r => r.gmail_id == a && r.user_id == u) = true) →
      process_emails_batch fc u gids s = s)
    ∧ (∀ (fc : String → Except String (EmailData × JobDetails)) (u : Nat)
        (gids : List String) (s : BatchState),
      s.poisoned = true → process_emails_batch fc u gids s = s) := by
  refine ⟨?_, ?_, ?_⟩
  · intro fc u gids
    induction gids with
    | nil =>
      intro s a e jd _ _ ha
      exact absurd ha (List.not_mem_nil a)
    | cons g gs ih =>
      intro s a e jd hp hcross ha hfc hfree
      show ∃ r ∈ (process_emails_batch fc u gs (processOne fc u s g)).rows, _
      by_cases hag : a = g
      · subst hag
        have h1 : s.rows.any (fun r => r.gmail_id == a && r.user_id == u) = false := by
          rw [List.any_eq_false]
          intro r hr
          simp [hfree r hr]
        have h2 : s.rows.any (fun r => r.gmail_id == a) = false := by
          rw [List.any_eq_false]
          intro r hr
          simp [hfree r hr]
        have hstep : processOne fc u s a =
            { s with rows := s.rows ++ [mkProcessedRow u a e jd] } := by
          unfold processOne
          rw [hp, h1, hfc, h2]
          rfl
        rw [hstep]
        exact ⟨mkProcessedRow u a e jd,
          mem_process_emails_batch_of_mem fc u gs _ _
            (List.mem_append_right _ (List.mem_singleton_self _)), rfl, rfl⟩
      · obtain ⟨hp', tail, hrows, htail⟩ :=
          processOne_clean fc u s g hp
            (fun r hr hrg => hcross g (List.mem_cons_self g gs) r hr hrg)
        have hcross' : ∀ g' ∈ gs, ∀ r ∈ (processOne fc u s g).rows,
            r.gmail_id = g' → r.user_id = u := by
          intro g' hg' r hr hrg'
          rw [hrows] at hr
          rcases List.mem_append.mp hr with hr | hr
          · exact hcross g' (List.mem_cons_of_mem g hg') r hr hrg'
          · exact (htail r hr).2
        have hfree' : ∀ r ∈ (processOne fc u s g).rows, r.gmail_id ≠ a := by
          intro r hr
          rw [hrows] at hr
          rcases List.mem_append.mp hr with hr | hr
          · exact hfree r hr
          · rw [(htail r hr).1]
            intro hga
            exact hag hga.symm
        have ha' : a ∈ gs := by
          rcases List.mem_cons.mp ha with h | h
          · exact absurd h hag
          · exact h
        exact ih (processOne fc u s g) a e jd hp' hcross' ha' hfc hfree'
  · intro fc u gids
    induction gids with
    | nil => intro s _; rfl
    | cons g gs ih =>
      intro s hall
      have hg : s.rows.any (fun r => r.gmail_id == g && r.user_id == u) = true :=
        hall g (List.mem_cons_self g gs)
      have hstep : processOne fc u s g = s := by
        unfold processOne
        cases hsp : s.poisoned with
        | true => rfl
        | false =>
          rw [hg]
          rfl
      show process_emails_batch fc u gs (processOne fc u s g) = s
      rw [hstep]
      exact ih s (fun a ha => hall a (List.mem_cons_of_mem g ha))
  · intro fc u gids
    induction gids with
    | nil => intro s _; rfl
    | cons g gs ih =>
      intro s hps
      have hstep : processOne fc u s g = s := by
        unfold processOne
        rw [hps]
        rfl
      show process_emails_batch fc u gs (processOne fc u s g) = s
      rw [hstep]
      exact ih s hps

/-- C9 as stated is false when the failure is a commit-stage one: user 7 runs the
batch `["A", "B", "C"]` on a clean session whose table holds another user's row
with mailbox message id `B`, and fetch/classify succeeds on every id — so
processing `B` throws (IntegrityError at commit). `A`, processed before `B`, gets
its row, but `C` gets none: the uncaught-by-rollback failure poisons the session
and silently skips the rest of the batch, contradicting "runBatch still produces
ProcessedMessage rows for A and C". -/
theorem batch_poisoned_session_counterexample :
    (process_emails_batch FxFetchOk 7 ["A", "B", "C"]
        { rows := [FxForeignRow], poisoned := false }).rows.any
        (fun r => r.gmail_id == "A" && r.user_id == 7) = true
    ∧ (process_emails_batch FxFetchOk 7 ["A", "B", "C"]
        { rows := [FxForeignRow], poisoned := false }).rows.any
        (fun r => r.gmail_id == "C") = false
    ∧ (process_emails_batch FxFetchOk 7 ["A", "B", "C"]
        { rows := [FxForeignRow], poisoned := false }).poisoned = true :=
  ⟨rfl, rfl, rfl⟩

/-- Witness for C9: in the batch `["A", "B", "C"]` where fetching `B` throws, rows
for `A` and `C` are still produced; a batch over an already-processed id leaves the
state unchanged; and a batch on an already-poisoned session is a no-op. -/
theorem batch_resilience_and_poisoning_witness :
    (∃ r ∈ (process_emails_batch FxFetch 7 ["A", "B", "C"]
        { rows := [], poisoned := false }).rows, r.gmail_id = "A" ∧ r.user_id = 7)
    ∧ (∃ r ∈ (process_emails_batch FxFetch 7 ["A", "B", "C"]
        { rows := [], poisoned := false }).rows, r.gmail_id = "C" ∧ r.user_id = 7)
    ∧ process_emails_batch FxFetch 7 ["g1"] { rows := FxDb1, poisoned := false } =
        { rows := FxDb1, poisoned := false }
    ∧ process_emails_batch FxFetchOk 7 ["D"] { rows := [], poisoned := true } =
        { rows := [], poisoned := true } :=
  ⟨batch_resilience_and_poisoning.1 FxFetch 7 ["A", "B", "C"]
      { rows := [], poisoned := false } "A" _ FxBatchSignal rfl (by simp) (by simp)
      rfl (by simp),
   batch_resilience_and_poisoning.1 FxFetch 7 ["A", "B", "C"]
      { rows := [], poisoned := false } "C" _ FxBatchSignal rfl (by simp) (by simp)
      rfl (by simp),
   batch_resilience_and_poisoning.2.1 FxFetch 7 ["g1"] { rows := FxDb1, poisoned := false }
      (by intro a ha; simp at ha; subst ha; rfl),
   batch_resilience_and_poisoning.2.2 FxFetchOk 7 ["D"] { rows := [], poisoned := true } rfl⟩

end Resumably
